import Mathlib

/-!
Verification of the Janus Engine orchestration core (lens catalog flattening,
functional regrouping, persona naming, media upload state machine, analysis
generation, and the multi-step synthesis pipelines), shallowly embedded from
the Python source (The-Janus-Engine-v7.2.py and earlier revisions).
-/

/-!
## Lens catalog and flattener (v7.2)

In `The-Janus-Engine-v7.2.py` the hierarchy is a dict mapping a category name
to a list of leaf lens names.  `flatten_lenses` collects every leaf, removes
duplicates with set semantics, and sorts the result lexicographically.
-/

/-- A v7.2 lens hierarchy: category name paired with its list of leaf lenses. -/
abbrev Hierarchy := List (String × List String)

/-- All leaf occurrences of a hierarchy, in catalog order (the concatenation
the Python loop builds into `flat_lenses` before deduplication). -/
def hierarchy_leaves (h : Hierarchy) : List String :=
  (h.map Prod.snd).flatten

/-- Embeds `flatten_lenses` (v7.2, lines 114-119): `sorted(list(set(flat)))`. -/
def flatten_lenses (h : Hierarchy) : List String :=
  List.insertionSort (fun a b => a ≤ b) (hierarchy_leaves h).dedup

theorem flatten_lenses_perm (h : Hierarchy) :
    List.Perm (flatten_lenses h) (hierarchy_leaves h).dedup :=
  List.perm_insertionSort _ _

theorem flatten_lenses_sorted (h : Hierarchy) :
    List.Sorted (fun a b : String => a ≤ b) (flatten_lenses h) :=
  List.sorted_insertionSort _ _

theorem flatten_lenses_nodup (h : Hierarchy) : (flatten_lenses h).Nodup :=
  ((flatten_lenses_perm h).symm).nodup (List.nodup_dedup _)

theorem mem_flatten_lenses (h : Hierarchy) (s : String) :
    s ∈ flatten_lenses h ↔ s ∈ hierarchy_leaves h := by
  rw [(flatten_lenses_perm h).mem_iff, List.mem_dedup]

/-- The v7.2 `LENSES_HIERARCHY` constant (lines 55-110), category order and
leaf order as in the source. -/
def LENSES_HIERARCHY : Hierarchy :=
  [("Structural & Formalist",
    ["Formalist", "Structuralism", "Narratology", "Semiotics",
     "Computational Analysis/Digital Humanities"]),
   ("Psychological",
    ["Jungian", "Freudian", "Evolutionary Psychology", "Behaviorism", "Lacanian"]),
   ("Philosophical",
    ["Existentialist", "Taoist", "Phenomenological", "Stoicism", "Platonism",
     "Nietzschean", "Absurdism"]),
   ("Socio-Political",
    ["Marxist", "Feminist", "Post-Colonial", "Queer Theory"]),
   ("Art History & Aesthetics",
    ["Aestheticism", "Cubism", "Surrealism", "Iconography/Iconology",
     "Formalist Art Criticism", "Impressionism"]),
   ("Communication & Media Theory",
    ["Rhetorical Analysis", "Media Ecology (McLuhan)", "Agenda-Setting Theory",
     "Uses and Gratifications Theory"]),
   ("Ethical Frameworks",
    ["Utilitarianism", "Virtue Ethics", "Deontology (Kantian)", "Bioethics"]),
   ("Scientific & STEM Perspectives",
    ["Cognitive Science", "Systems Theory (Complexity)", "Ecocriticism",
     "Astrophysics/Cosmology", "Materials Science", "Epidemiology"]),
   ("Economics & Systems",
    ["Game Theory", "Behavioral Economics", "Supply Chain Analysis"]),
   ("Law & Governance",
    ["Legal Positivism", "Critical Legal Studies"]),
   ("Spiritual & Esoteric",
    ["Animism", "Bhakti Yoga (Hindu Devotion)", "Buddhist Philosophy (General)",
     "Christian Mysticism", "Christian Theology", "Gnosticism", "Hermeticism",
     "Kabbalah (Jewish Mysticism)", "Mysticism (General)", "Quranic Studies (Islam)",
     "Rabbinic Thought (Judaism)", "Shinto", "Sufism (Islamic Mysticism)",
     "Tibetan Buddhism", "Vedanta (Hindu Philosophy)", "Western Esotericism",
     "Zen Buddhism"]),
   ("Historical & Contextual",
    ["Biographical", "Historical Context", "Reader-Response"])]

/-- The fixed tier mapping hardcoded inside `create_functional_mapping`
(v7.2, lines 135-186): the Three Tiers of Inquiry. -/
def FUNCTIONAL_TIERS : Hierarchy :=
  [("Contextual (What, Who, Where, When)",
    ["Biographical", "Historical Context", "Reader-Response",
     "Epidemiology", "Supply Chain Analysis", "Astrophysics/Cosmology",
     "Quranic Studies (Islam)", "Rabbinic Thought (Judaism)",
     "Iconography/Iconology", "Agenda-Setting Theory"]),
   ("Mechanical (How)",
    ["Formalist", "Structuralism", "Narratology", "Semiotics",
     "Systems Theory (Complexity)", "Cognitive Science", "Behaviorism",
     "Game Theory", "Behavioral Economics",
     "Computational Analysis/Digital Humanities", "Materials Science",
     "Legal Positivism", "Cubism", "Formalist Art Criticism", "Impressionism",
     "Rhetorical Analysis"]),
   ("Interpretive (Why)",
    ["Jungian", "Freudian", "Lacanian", "Evolutionary Psychology",
     "Existentialist", "Taoist", "Phenomenological", "Stoicism", "Platonism",
     "Nietzschean", "Absurdism",
     "Marxist", "Feminist", "Post-Colonial", "Queer Theory",
     "Utilitarianism", "Virtue Ethics", "Deontology (Kantian)", "Bioethics",
     "Ecocriticism", "Critical Legal Studies",
     "Animism", "Bhakti Yoga (Hindu Devotion)", "Buddhist Philosophy (General)",
     "Christian Mysticism", "Christian Theology", "Gnosticism", "Hermeticism",
     "Kabbalah (Jewish Mysticism)", "Mysticism (General)", "Shinto",
     "Sufism (Islamic Mysticism)", "Tibetan Buddhism",
     "Vedanta (Hindu Philosophy)", "Western Esotericism", "Zen Buddhism",
     "Aestheticism", "Surrealism", "Media Ecology (McLuhan)",
     "Uses and Gratifications Theory"])]

/-- Embeds `create_functional_mapping` (v7.2, lines 131-200).  The first
component is the set of leaves named by the single data-integrity warning the
function logs (`missing = all_hierarchical - all_functional`; empty means no
warning is emitted); the second component is the returned tier mapping with
its per-tier lists sorted.  The function always returns the mapping: the
integrity check is a logged warning, never an error. -/
def create_functional_mapping (h : Hierarchy) : List String × Hierarchy :=
  let missing := (hierarchy_leaves h).dedup.filter
    (fun l => decide (l ∉ hierarchy_leaves FUNCTIONAL_TIERS))
  (missing,
   FUNCTIONAL_TIERS.map
     (fun p => (p.1, List.insertionSort (fun a b : String => a ≤ b) p.2)))

/-- C6 counterexample: on a catalog in which the leaf name "X" occurs under two
categories, `flatten_lenses` returns the single entry "X", but that entry is
traceable to two leaves of the catalog (its occurrence count among the leaves
of the catalog is 2, not 1), so the claim fails as stated for this catalog. -/
theorem flatten_lenses_claim_counterexample :
    ("X" ∈ flatten_lenses [("A", ["X"]), ("B", ["X"])])
    ∧ (hierarchy_leaves [("A", ["X"]), ("B", ["X"])]).count "X" = 2 :=
  ⟨(mem_flatten_lenses _ _).mpr (by decide), by decide⟩

/-- C6 (amended): for every hierarchical lens catalog whose leaf names are
pairwise distinct (a well-formed catalog), `flatten_lenses` returns a
lexicographically sorted list with no duplicate entries, every entry is a leaf
lens name reachable from the catalog (and conversely every leaf appears), and
each entry is traceable to exactly one leaf occurrence in the catalog. -/
theorem flatten_lenses_spec (h : Hierarchy)
    (hnd : (hierarchy_leaves h).Nodup) :
    List.Sorted (fun a b : String => a ≤ b) (flatten_lenses h)
    ∧ (flatten_lenses h).Nodup
    ∧ (∀ s, s ∈ flatten_lenses h ↔ s ∈ hierarchy_leaves h)
    ∧ (∀ s ∈ flatten_lenses h, (hierarchy_leaves h).count s = 1) := by
  refine ⟨flatten_lenses_sorted h, flatten_lenses_nodup h, mem_flatten_lenses h, ?_⟩
  intro s hs
  exact List.count_eq_one_of_mem hnd ((mem_flatten_lenses h s).mp hs)

/-- C6 witness: the amended theorem applied to the actual v7.2 catalog, whose
66 leaf names are pairwise distinct. -/
theorem flatten_lenses_spec_witness :
    List.Sorted (fun a b : String => a ≤ b) (flatten_lenses LENSES_HIERARCHY)
    ∧ (flatten_lenses LENSES_HIERARCHY).Nodup
    ∧ (∀ s, s ∈ flatten_lenses LENSES_HIERARCHY ↔
        s ∈ hierarchy_leaves LENSES_HIERARCHY)
    ∧ (∀ s ∈ flatten_lenses LENSES_HIERARCHY,
        (hierarchy_leaves LENSES_HIERARCHY).count s = 1) :=
  flatten_lenses_spec LENSES_HIERARCHY (by decide)

/-- C5 counterexample: on the empty catalog the integrity check produces zero
warnings even though the tier assignment covers the leaf "Jungian", which is
absent from the catalog — a leaf present in one of the two sets but missing
from the other that is never surfaced.  The check is one-directional. -/
theorem create_functional_mapping_claim_counterexample :
    (create_functional_mapping []).1 = []
    ∧ "Jungian" ∈ hierarchy_leaves FUNCTIONAL_TIERS
    ∧ "Jungian" ∉ hierarchy_leaves ([] : Hierarchy) := by
  refine ⟨by decide, by decide, by decide⟩

/-- C5 (amended): the functional regrouping surfaces, as a non-fatal warning,
exactly the leaves reachable from the catalog that are absent from the tier
assignment — one direction only; tier-assignment leaves absent from the
catalog are never surfaced.  The regrouped mapping is returned in every case
(the check never aborts), and on the actual v7.2 catalog the warning set is
empty. -/
theorem create_functional_mapping_one_directional :
    (∀ (h : Hierarchy) (l : String),
      l ∈ (create_functional_mapping h).1 ↔
        (l ∈ hierarchy_leaves h ∧ l ∉ hierarchy_leaves FUNCTIONAL_TIERS))
    ∧ (∀ h : Hierarchy, (create_functional_mapping h).2 =
        FUNCTIONAL_TIERS.map
          (fun p => (p.1, List.insertionSort (fun a b : String => a ≤ b) p.2)))
    ∧ (create_functional_mapping LENSES_HIERARCHY).1 = [] := by
  refine ⟨?_, fun h => rfl, by decide⟩
  intro h l
  simp [create_functional_mapping, List.mem_filter, List.mem_dedup]

/-!
## Persona namer (TheJanusEngineV5.py, `create_persona_name`, lines 252-287)

Python string primitives (`in`, `split`, `replace`) are modelled as structural
recursions on the character list of the string, with the Python left-to-right
non-overlapping semantics for a non-empty pattern.
-/

/-- Does the character list start with `pat`? -/
def listStartsWith : List Char → List Char → Bool
  | [], _ => true
  | _ :: _, [] => false
  | p :: ps, c :: cs => p = c && listStartsWith ps cs

/-- Python `pat in s` on character lists (substring containment). -/
def listContains (pat : List Char) : List Char → Bool
  | [] => listStartsWith pat []
  | c :: t => listStartsWith pat (c :: t) || listContains pat t

/-- Helper for `listSplit`: `skip` counts pattern characters still to be
consumed after a match; `acc` is the current segment. -/
def listSplitAux (sep : List Char) : Nat → List Char → List Char → List (List Char)
  | 0, acc, [] => [acc]
  | 0, acc, c :: t =>
    if listStartsWith sep (c :: t) then
      acc :: listSplitAux sep (sep.length - 1) [] t
    else
      listSplitAux sep 0 (acc ++ [c]) t
  | _ + 1, acc, [] => [acc]
  | k + 1, acc, _ :: t => listSplitAux sep k acc t

/-- Python `s.split(sep)` for a non-empty separator. -/
def pySplit (sep s : String) : List String :=
  (listSplitAux sep.data 0 [] s.data).map List.asString

/-- Helper for `pyReplace`, same skip-counter technique. -/
def listReplaceAux (old new : List Char) : Nat → List Char → List Char
  | 0, [] => []
  | 0, c :: t =>
    if listStartsWith old (c :: t) then
      new ++ listReplaceAux old new (old.length - 1) t
    else
      c :: listReplaceAux old new 0 t
  | _ + 1, [] => []
  | k + 1, _ :: t => listReplaceAux old new k t

/-- Python `s.replace(old, new)` for a non-empty `old`. -/
def pyReplace (s old new : String) : String :=
  (listReplaceAux old.data new.data 0 s.data).asString

/-- Python `pat in s`. -/
def pyContains (pat s : String) : Bool :=
  listContains pat.data s.data

/-- The core-term extraction at the top of `create_persona_name`:
`lens_name.split("(")[1].replace(")", "")` when the key has the composite
"category (sub-lens)" form, else the whole key. -/
def persona_core_term (lens_name : String) : String :=
  if pyContains "(" lens_name then
    pyReplace ((pySplit "(" lens_name).getD 1 "") ")" ""
  else lens_name

/-- The ordered override / suffix-rule table of `create_persona_name`
(v5, lines 261-287), applied to the extracted core term. -/
def persona_title (name : String) : String :=
  if name = "Structural & Formalist" then "The Formalist"
  else if name = "Historical & Biographical" then "The Historian"
  else if name = "Comparative" ∨ name = "General" then "The Comparativist"
  else if name = "Jungian" ∨ name = "Freudian" then "The " ++ name ++ " Analyst"
  else if name = "Evolutionary Psychology" then "The Evolutionary Psychologist"
  else if name = "Behaviorism" then "The Behaviorist"
  else if name = "Marxist" ∨ name = "Feminist" then "The " ++ name ++ " Critic"
  else if name = "Existentialist" ∨ name = "Taoist" ∨ name = "Phenomenological" then
    "The " ++ name ++ " Philosopher"
  else if name = "Stoicism" then "The Stoic Philosopher"
  else if name = "Platonism" then "The Platonic Philosopher"
  else if name = "Utilitarianism" ∨ name = "Virtue Ethics" then
    "The " ++ pyReplace name "ism" "" ++ " Ethicist"
  else if name = "Cognitive Science" then "The Cognitive Scientist"
  else if name = "Systems Theory" then "The Systems Theorist"
  else if name = "Ecocriticism" then "The Ecocritic"
  else if name = "Buddhist" then "The Buddhist Scholar"
  else if name = "Western Esotericism" then "The Esotericist"
  else if pyContains "Theory" name ∨ name = "Post-Colonial" then
    "The " ++ pyReplace name " Theory" "" ++ " Theorist"
  else "The " ++ name ++ " Scholar"

/-- Embeds `create_persona_name` (v5, lines 252-287). -/
def create_persona_name (lens_name : String) : String :=
  persona_title (persona_core_term lens_name)

theorem append_the_len_pos (s t : String) : 0 < ("The " ++ s ++ t).length := by
  rw [String.length_append, String.length_append]
  have h4 : ("The " : String).length = 4 := rfl
  omega

theorem persona_title_len_pos (name : String) : 0 < (persona_title name).length := by
  unfold persona_title
  by_cases h1 : name = "Structural & Formalist"
  · rw [if_pos h1]; decide
  rw [if_neg h1]
  by_cases h2 : name = "Historical & Biographical"
  · rw [if_pos h2]; decide
  rw [if_neg h2]
  by_cases h3 : name = "Comparative" ∨ name = "General"
  · rw [if_pos h3]; decide
  rw [if_neg h3]
  by_cases h4 : name = "Jungian" ∨ name = "Freudian"
  · rw [if_pos h4]; exact append_the_len_pos _ _
  rw [if_neg h4]
  by_cases h5 : name = "Evolutionary Psychology"
  · rw [if_pos h5]; decide
  rw [if_neg h5]
  by_cases h6 : name = "Behaviorism"
  · rw [if_pos h6]; decide
  rw [if_neg h6]
  by_cases h7 : name = "Marxist" ∨ name = "Feminist"
  · rw [if_pos h7]; exact append_the_len_pos _ _
  rw [if_neg h7]
  by_cases h8 : name = "Existentialist" ∨ name = "Taoist" ∨ name = "Phenomenological"
  · rw [if_pos h8]; exact append_the_len_pos _ _
  rw [if_neg h8]
  by_cases h9 : name = "Stoicism"
  · rw [if_pos h9]; decide
  rw [if_neg h9]
  by_cases h10 : name = "Platonism"
  · rw [if_pos h10]; decide
  rw [if_neg h10]
  by_cases h11 : name = "Utilitarianism" ∨ name = "Virtue Ethics"
  · rw [if_pos h11]; exact append_the_len_pos _ _
  rw [if_neg h11]
  by_cases h12 : name = "Cognitive Science"
  · rw [if_pos h12]; decide
  rw [if_neg h12]
  by_cases h13 : name = "Systems Theory"
  · rw [if_pos h13]; decide
  rw [if_neg h13]
  by_cases h14 : name = "Ecocriticism"
  · rw [if_pos h14]; decide
  rw [if_neg h14]
  by_cases h15 : name = "Buddhist"
  · rw [if_pos h15]; decide
  rw [if_neg h15]
  by_cases h16 : name = "Western Esotericism"
  · rw [if_pos h16]; decide
  rw [if_neg h16]
  by_cases h17 : pyContains "Theory" name = true ∨ name = "Post-Colonial"
  · rw [if_pos h17]; exact append_the_len_pos _ _
  rw [if_neg h17]
  exact append_the_len_pos _ _

/-- C7: the persona namer is total and deterministic — for every lens key it
returns a non-empty title and equal inputs give equal outputs — and on the
composite key "Socio-Political (Marxist)" the title contains "Marxist" and
ends in "Critic" (it is "The Marxist Critic"). -/
theorem create_persona_name_spec :
    (∀ k : String, 0 < (create_persona_name k).length)
    ∧ (∀ k : String, create_persona_name k = create_persona_name k)
    ∧ listContains "Marxist".data
        (create_persona_name "Socio-Political (Marxist)").data = true
    ∧ List.isSuffixOf "Critic".data
        (create_persona_name "Socio-Political (Marxist)").data = true :=
  ⟨fun _ => persona_title_len_pos _, fun _ => rfl, by decide, by decide⟩

/-!
## Media uploader (v7.2, `upload_to_gemini`, lines 243-317)

The remote file store is mocked: `guessed` is the result of
`mimetypes.guess_type` on the file name, `createOk` is whether
`genai.upload_file` succeeds in creating the remote file, `initState` is the
state of the handle right after creation, and `poll k` is the state returned
by the k-th `genai.get_file` call.  Time is modelled as 3 seconds per poll
sleep (everything else instantaneous), exactly the quantity the code compares
against the 300-second ceiling.
-/

/-- Processing state of a remote file handle. -/
inductive FileState where
  | processing
  | active
  | failed
  | other (s : String)
deriving DecidableEq

/-- The state name string used in error messages and comparisons. -/
def stateName : FileState → String
  | .processing => "PROCESSING"
  | .active => "ACTIVE"
  | .failed => "FAILED"
  | .other s => s

/-- Failure modes of the upload step (spec taxonomy §7). -/
inductive UploadError where
  | mimeTypeUnknown
  | createFailed
  | uploadTimeout
  | remoteProcessingFailed
  | unexpectedState (s : String)
deriving DecidableEq

/-- Mocked remote file store / environment of one upload attempt. -/
structure RemoteStore where
  guessed : Option String
  createOk : Bool
  initState : FileState
  poll : Nat → FileState

/-- Observable trace of one `upload_to_gemini` call: how many remote files
were created, how many `get_file` polls were issued, and the outcome (the
final state of the handle on success). -/
structure UploadTrace where
  filesCreated : Nat
  polls : Nat
  result : Except UploadError FileState

/-- `POLL_INTERVAL = 3` (v7.2 line 281). -/
def POLL_INTERVAL : Nat := 3

/-- `TIMEOUT = 300` (v7.2 line 282). -/
def TIMEOUT : Nat := 300

/-- Python truthiness of an optional string (`None` and `""` are falsy). -/
def pyFalsy : Option String → Bool
  | none => true
  | some s => s.isEmpty

/-- MIME resolution (v7.2 lines 252-264): start from the declared type; if it
is falsy or the generic "application/octet-stream", try the extension guess
and keep it only when truthy; fail afterwards only when the result is still
falsy. -/
def resolve_mime_type (declared guessed : Option String) : Option String :=
  let mt :=
    if pyFalsy declared || declared = some "application/octet-stream" then
      if pyFalsy guessed then declared else guessed
    else declared
  if pyFalsy mt then none else mt

/-- The polling loop (v7.2 lines 290-297): while the state is "PROCESSING",
raise a timeout once the elapsed time (3 seconds per completed poll) exceeds
the 300-second ceiling, otherwise sleep and poll again.  `k` is the number of
polls issued so far; returns the total poll count and the final state (or the
timeout error). -/
def pollLoop (poll : Nat → FileState) (k : Nat) (s : FileState) :
    Nat × Except UploadError FileState :=
  if s = FileState.processing then
    if _h : TIMEOUT < POLL_INTERVAL * k then
      (k, Except.error UploadError.uploadTimeout)
    else
      pollLoop poll (k + 1) (poll (k + 1))
  else
    (k, Except.ok s)
termination_by TIMEOUT / POLL_INTERVAL + 1 - k
decreasing_by
  simp only [POLL_INTERVAL, TIMEOUT] at *
  omega

/-- Embeds `upload_to_gemini` (v7.2 lines 243-317): resolve the MIME type,
create the remote file, poll until the state leaves "PROCESSING", then map
the terminal state to the outcome.  No deletion happens here on any path. -/
def upload_to_gemini (declared : Option String) (env : RemoteStore) : UploadTrace :=
  match resolve_mime_type declared env.guessed with
  | none => ⟨0, 0, Except.error UploadError.mimeTypeUnknown⟩
  | some _ =>
    if env.createOk then
      match pollLoop env.poll 0 env.initState with
      | (k, Except.error e) => ⟨1, k, Except.error e⟩
      | (k, Except.ok s) =>
        if s = FileState.failed then
          ⟨1, k, Except.error UploadError.remoteProcessingFailed⟩
        else if s = FileState.active then
          ⟨1, k, Except.ok FileState.active⟩
        else
          ⟨1, k, Except.error (UploadError.unexpectedState (stateName s))⟩
    else
      ⟨0, 0, Except.error UploadError.createFailed⟩

theorem pollLoop_of_ne (poll : Nat → FileState) (k : Nat) (s : FileState)
    (hs : s ≠ FileState.processing) : pollLoop poll k s = (k, Except.ok s) := by
  rw [pollLoop]
  simp [hs]

theorem pollLoop_timeout (poll : Nat → FileState)
    (hp : ∀ n, poll n = FileState.processing) :
    ∀ (m k : Nat), k + m = 101 →
      pollLoop poll k FileState.processing =
        (101, Except.error UploadError.uploadTimeout) := by
  intro m
  induction m with
  | zero =>
    intro k hk
    have hk2 : k = 101 := by omega
    subst hk2
    rw [pollLoop]
    simp [POLL_INTERVAL, TIMEOUT]
  | succ n ih =>
    intro k hk
    rw [pollLoop]
    have hlt : ¬ TIMEOUT < POLL_INTERVAL * k := by
      simp only [TIMEOUT, POLL_INTERVAL]
      omega
    simp only [if_pos rfl, hlt, dif_neg, hp, reduceIte]
    exact ih (k + 1) (by omega)

theorem pollLoop_two (poll : Nat → FileState)
    (h1 : poll 1 = FileState.processing) (h2 : poll 2 = FileState.active) :
    pollLoop poll 0 FileState.processing = (2, Except.ok FileState.active) := by
  rw [pollLoop]
  simp only [POLL_INTERVAL, TIMEOUT, reduceIte, h1]
  rw [pollLoop]
  simp only [POLL_INTERVAL, TIMEOUT, reduceIte, h2]
  rw [pollLoop]
  simp

/-- C3: the upload state machine.  For any attempt whose MIME type resolves
and whose remote file is created: (1) a store that transitions
processing→active on the second poll makes `upload_to_gemini` return the
handle in state ACTIVE after exactly 2 poll calls; (2) a store that never
leaves PROCESSING makes it fail with the timeout error after 101 polls, at
which point the elapsed time (3 s per poll) exceeds the 300 s ceiling;
(3) terminal state FAILED yields the processing-failure error; (4) any other
terminal state yields the unexpected-state error naming that state. -/
theorem upload_state_machine_spec :
    (∀ (d : Option String) (env : RemoteStore),
      resolve_mime_type d env.guessed ≠ none →
      env.createOk = true →
      env.initState = FileState.processing →
      env.poll 1 = FileState.processing →
      env.poll 2 = FileState.active →
      upload_to_gemini d env = ⟨1, 2, Except.ok FileState.active⟩)
    ∧ (∀ (d : Option String) (env : RemoteStore),
      resolve_mime_type d env.guessed ≠ none →
      env.createOk = true →
      env.initState = FileState.processing →
      (∀ n, env.poll n = FileState.processing) →
      upload_to_gemini d env =
          ⟨1, 101, Except.error UploadError.uploadTimeout⟩
        ∧ TIMEOUT < POLL_INTERVAL * 101)
    ∧ (∀ (d : Option String) (env : RemoteStore),
      resolve_mime_type d env.guessed ≠ none →
      env.createOk = true →
      env.initState = FileState.failed →
      upload_to_gemini d env =
        ⟨1, 0, Except.error UploadError.remoteProcessingFailed⟩)
    ∧ (∀ (d : Option String) (env : RemoteStore) (s : String),
      resolve_mime_type d env.guessed ≠ none →
      env.createOk = true →
      env.initState = FileState.other s →
      upload_to_gemini d env =
        ⟨1, 0, Except.error (UploadError.unexpectedState s)⟩) := by
  refine ⟨?_, ?_, ?_, ?_⟩
  · intro d env hm hc hi hp1 hp2
    cases hres : resolve_mime_type d env.guessed with
    | none => exact absurd hres hm
    | some m =>
      simp only [upload_to_gemini, hres, hc, if_pos, hi,
        pollLoop_two env.poll hp1 hp2]
      simp
  · intro d env hm hc hi hp
    cases hres : resolve_mime_type d env.guessed with
    | none => exact absurd hres hm
    | some m =>
      refine ⟨?_, by simp [POLL_INTERVAL, TIMEOUT]⟩
      simp only [upload_to_gemini, hres, hc, if_pos, hi,
        pollLoop_timeout env.poll hp 101 0 rfl]
  · intro d env hm hc hi
    cases hres : resolve_mime_type d env.guessed with
    | none => exact absurd hres hm
    | some m =>
      simp only [upload_to_gemini, hres, hc, if_pos, hi,
        pollLoop_of_ne env.poll 0 FileState.failed (by simp)]
  · intro d env s hm hc hi
    cases hres : resolve_mime_type d env.guessed with
    | none => exact absurd hres hm
    | some m =>
      simp only [upload_to_gemini, hres, hc, if_pos, hi,
        pollLoop_of_ne env.poll 0 (FileState.other s) (by simp)]
      simp [stateName]

/-- C3 witness: the four scenarios of `upload_state_machine_spec` instantiated
at concrete stores (declared MIME type "image/png"). -/
theorem upload_state_machine_spec_witness :
    upload_to_gemini (some "image/png")
        ⟨none, true, FileState.processing,
         fun k => if 2 ≤ k then FileState.active else FileState.processing⟩ =
      ⟨1, 2, Except.ok FileState.active⟩
    ∧ upload_to_gemini (some "image/png")
        ⟨none, true, FileState.processing, fun _ => FileState.processing⟩ =
      ⟨1, 101, Except.error UploadError.uploadTimeout⟩
    ∧ upload_to_gemini (some "image/png")
        ⟨none, true, FileState.failed, fun _ => FileState.failed⟩ =
      ⟨1, 0, Except.error UploadError.remoteProcessingFailed⟩
    ∧ upload_to_gemini (some "image/png")
        ⟨none, true, FileState.other "EXPIRED",
         fun _ => FileState.other "EXPIRED"⟩ =
      ⟨1, 0, Except.error (UploadError.unexpectedState "EXPIRED")⟩ :=
  ⟨upload_state_machine_spec.1 _ _ (by decide) rfl rfl (by decide) (by decide),
   (upload_state_machine_spec.2.1 _ _ (by decide) rfl rfl (fun n => rfl)).1,
   upload_state_machine_spec.2.2.1 _ _ (by decide) rfl rfl,
   upload_state_machine_spec.2.2.2 _ _ "EXPIRED" (by decide) rfl rfl⟩

/-!
## Analysis generator

`generate_analysis` in v7.2 (lines 357-437) is the two-tier General/Soldier
flow: upload once for media, issue the General call then the Soldier call,
and in a `finally` block delete the uploaded file — but only when
`upload_to_gemini` returned a handle (`gemini_file` is left `None` by every
upload failure path, including those that had already created the remote
file).  `generate_analysis` in TheJanusEngineV5.py (lines 378-456) is the
direct single-call variant with the same upload/cleanup shape.
-/

/-- Work modality (`M_TEXT`/`M_IMAGE`/`M_AUDIO`). -/
inductive Modality where
  | text
  | image
  | audio
deriving DecidableEq

/-- Environment of one v7.2 analysis attempt: the remote store mock, the
declared MIME type of the file, the outcomes of the two generation calls (`none`
is a raised/blocked call), and whether `genai.delete_file` succeeds. -/
structure GenEnv where
  declaredType : Option String
  store : RemoteStore
  genGeneral : Option String
  genSoldier : Option String
  deleteOk : Bool

/-- Observable trace of one analysis attempt: remote files created, polls
issued, generation calls issued, `delete_file` invocations, and the returned
analysis text (`none` for the failure return). -/
structure AnalysisTrace where
  filesCreated : Nat
  polls : Nat
  genCalls : Nat
  deletes : Nat
  result : Option String
deriving DecidableEq

/-- Embeds `generate_analysis` (v7.2, lines 357-437).  Text modality skips
the uploader; media modality uploads once and reuses the handle for both
calls; the `finally` block invokes `delete_file` exactly when `gemini_file`
is set, i.e. when `upload_to_gemini` returned a handle — a deletion failure
(`deleteOk = false`) is only logged and changes nothing. -/
def generate_analysis (env : GenEnv) (m : Modality) : AnalysisTrace :=
  match m with
  | Modality.text =>
    match env.genGeneral with
    | none => ⟨0, 0, 1, 0, none⟩
    | some _ =>
      match env.genSoldier with
      | none => ⟨0, 0, 2, 0, none⟩
      | some t => ⟨0, 0, 2, 0, some t⟩
  | _ =>
    let u := upload_to_gemini env.declaredType env.store
    match u.result with
    | Except.error _ => ⟨u.filesCreated, u.polls, 0, 0, none⟩
    | Except.ok _ =>
      match env.genGeneral with
      | none => ⟨u.filesCreated, u.polls, 1, 1, none⟩
      | some _ =>
        match env.genSoldier with
        | none => ⟨u.filesCreated, u.polls, 2, 1, none⟩
        | some t => ⟨u.filesCreated, u.polls, 2, 1, some t⟩

/-- Environment of one V5 (direct-mode) analysis attempt: one generation
call. -/
structure GenEnvV5 where
  declaredType : Option String
  store : RemoteStore
  gen : Option String
  deleteOk : Bool

/-- Embeds `generate_analysis` (TheJanusEngineV5.py, lines 378-456): direct
mode issues a single generation call; media modality uploads first and the
`finally` block deletes exactly when the upload returned a handle. -/
def generate_analysis_v5 (env : GenEnvV5) (m : Modality) : AnalysisTrace :=
  match m with
  | Modality.text =>
    match env.gen with
    | none => ⟨0, 0, 1, 0, none⟩
    | some t => ⟨0, 0, 1, 0, some t⟩
  | _ =>
    let u := upload_to_gemini env.declaredType env.store
    match u.result with
    | Except.error _ => ⟨u.filesCreated, u.polls, 0, 0, none⟩
    | Except.ok _ =>
      match env.gen with
      | none => ⟨u.filesCreated, u.polls, 1, 1, none⟩
      | some t => ⟨u.filesCreated, u.polls, 1, 1, some t⟩

theorem upload_init_failed (d : Option String) (env : RemoteStore)
    (hm : resolve_mime_type d env.guessed ≠ none) (hc : env.createOk = true)
    (hi : env.initState = FileState.failed) :
    upload_to_gemini d env =
      ⟨1, 0, Except.error UploadError.remoteProcessingFailed⟩ := by
  cases hres : resolve_mime_type d env.guessed with
  | none => exact absurd hres hm
  | some m =>
    simp only [upload_to_gemini, hres, hc, if_pos, hi,
      pollLoop_of_ne env.poll 0 FileState.failed (by simp)]

theorem upload_init_active (d : Option String) (env : RemoteStore)
    (hm : resolve_mime_type d env.guessed ≠ none) (hc : env.createOk = true)
    (hi : env.initState = FileState.active) :
    upload_to_gemini d env = ⟨1, 0, Except.ok FileState.active⟩ := by
  cases hres : resolve_mime_type d env.guessed with
  | none => exact absurd hres hm
  | some m =>
    simp only [upload_to_gemini, hres, hc, if_pos, hi,
      pollLoop_of_ne env.poll 0 FileState.active (by simp)]
    simp

/-- C1 counterexample: an image attempt whose remote file is created but whose
processing ends in state FAILED.  `upload_to_gemini` returns `None`, so
`gemini_file` stays unset in `generate_analysis` and the `finally` block never
calls `delete_file`: one remote file was created, zero deletions were issued —
the created remote file leaks, contradicting the claim that delete is invoked
exactly once on every obtained handle. -/
theorem cleanup_claim_counterexample :
    (generate_analysis
        ⟨some "image/png",
         ⟨none, true, FileState.failed, fun _ => FileState.failed⟩,
         some "strategy", some "analysis", true⟩
        Modality.image).filesCreated = 1
    ∧ (generate_analysis
        ⟨some "image/png",
         ⟨none, true, FileState.failed, fun _ => FileState.failed⟩,
         some "strategy", some "analysis", true⟩
        Modality.image).deletes = 0 := by
  have hu := upload_init_failed (some "image/png")
    ⟨none, true, FileState.failed, fun _ => FileState.failed⟩
    (by decide) rfl rfl
  constructor
  · simp only [generate_analysis, hu]
  · simp only [generate_analysis, hu]

/-- C1 (amended): `delete_file` is invoked exactly once on every handle that
`upload_to_gemini` actually returns — on the success path and on every path
where a later generation call fails — and the result of the attempt is unaffected
by whether the deletion succeeds; but on every attempt where the upload step
itself fails (including failures after the remote file was created, such as a
FAILED terminal state or a poll timeout), no deletion is invoked at all, so
such upload failures can leak remote storage. -/
theorem generate_analysis_cleanup :
    (∀ (env : GenEnv) (m : Modality) (s : FileState),
      m ≠ Modality.text →
      (upload_to_gemini env.declaredType env.store).result = Except.ok s →
      (generate_analysis env m).deletes = 1)
    ∧ (∀ (env : GenEnv) (m : Modality) (e : UploadError),
      (upload_to_gemini env.declaredType env.store).result = Except.error e →
      (generate_analysis env m).deletes = 0)
    ∧ (∀ (env : GenEnv) (m : Modality) (b : Bool),
      (generate_analysis
        ⟨env.declaredType, env.store, env.genGeneral, env.genSoldier, b⟩
        m).result = (generate_analysis env m).result) := by
  refine ⟨?_, ?_, ?_⟩
  · intro env m s hm hr
    cases m with
    | text => exact absurd rfl hm
    | image =>
      cases hg : env.genGeneral with
      | none => simp [generate_analysis, hr, hg]
      | some t =>
        cases hs : env.genSoldier <;> simp [generate_analysis, hr, hg, hs]
    | audio =>
      cases hg : env.genGeneral with
      | none => simp [generate_analysis, hr, hg]
      | some t =>
        cases hs : env.genSoldier <;> simp [generate_analysis, hr, hg, hs]
  · intro env m e hr
    cases m with
    | text =>
      cases hg : env.genGeneral with
      | none => simp [generate_analysis, hg]
      | some t => cases hs : env.genSoldier <;> simp [generate_analysis, hg, hs]
    | image => simp [generate_analysis, hr]
    | audio => simp [generate_analysis, hr]
  · intro env m b
    cases m <;> rfl

/-- C1 witness: the amended theorem at a concrete attempt whose upload
succeeds immediately (handle ACTIVE) and whose second (Soldier) generation
call fails: the deletion is still invoked exactly once, and flipping the
deletion outcome leaves the result of the attempt unchanged. -/
theorem generate_analysis_cleanup_witness :
    (generate_analysis
      ⟨some "image/png", ⟨none, true, FileState.active, fun _ => FileState.active⟩,
       some "strategy", none, true⟩ Modality.image).deletes = 1
    ∧ (generate_analysis
      ⟨some "image/png", ⟨none, true, FileState.active, fun _ => FileState.active⟩,
       some "strategy", none, false⟩ Modality.image).result =
      (generate_analysis
        ⟨some "image/png", ⟨none, true, FileState.active, fun _ => FileState.active⟩,
         some "strategy", none, true⟩ Modality.image).result := by
  have hu := upload_init_active (some "image/png")
    ⟨none, true, FileState.active, fun _ => FileState.active⟩ (by decide) rfl rfl
  constructor
  · exact generate_analysis_cleanup.1
      ⟨some "image/png", ⟨none, true, FileState.active, fun _ => FileState.active⟩,
       some "strategy", none, true⟩
      Modality.image FileState.active (by decide) (by rw [hu])
  · exact generate_analysis_cleanup.2.2
      ⟨some "image/png", ⟨none, true, FileState.active, fun _ => FileState.active⟩,
       some "strategy", none, true⟩
      Modality.image false

/-- C8: a text-modality work bypasses the Media Uploader entirely: zero remote
files are created, zero polls and zero deletions are issued in both variants;
the v7.2 two-tier flow issues exactly two generation calls (the strategy
call, and — once it succeeds — the execution call whose text is returned),
and the V5 direct flow always issues exactly one generation call whose text
is returned. -/
theorem text_modality_call_counts :
    (∀ env : GenEnv,
      (generate_analysis env Modality.text).filesCreated = 0
      ∧ (generate_analysis env Modality.text).polls = 0
      ∧ (generate_analysis env Modality.text).deletes = 0
      ∧ (env.genGeneral.isSome = true →
          (generate_analysis env Modality.text).genCalls = 2)
      ∧ (∀ t, env.genGeneral.isSome = true → env.genSoldier = some t →
          (generate_analysis env Modality.text).result = some t))
    ∧ (∀ env : GenEnvV5,
      (generate_analysis_v5 env Modality.text).filesCreated = 0
      ∧ (generate_analysis_v5 env Modality.text).polls = 0
      ∧ (generate_analysis_v5 env Modality.text).deletes = 0
      ∧ (generate_analysis_v5 env Modality.text).genCalls = 1
      ∧ (∀ t, env.gen = some t →
          (generate_analysis_v5 env Modality.text).result = some t)) := by
  constructor
  · rintro ⟨d, st, g, sol, dok⟩
    cases g with
    | none =>
      exact ⟨by simp [generate_analysis], by simp [generate_analysis],
        by simp [generate_analysis], by simp, by simp⟩
    | some g0 =>
      cases sol with
      | none =>
        exact ⟨by simp [generate_analysis], by simp [generate_analysis],
          by simp [generate_analysis], fun _ => by simp [generate_analysis],
          by simp⟩
      | some t0 =>
        refine ⟨by simp [generate_analysis], by simp [generate_analysis],
          by simp [generate_analysis], fun _ => by simp [generate_analysis], ?_⟩
        intro t _ ht
        injection ht with h
        subst h
        simp [generate_analysis]
  · rintro ⟨d, st, g, dok⟩
    cases g with
    | none =>
      exact ⟨by simp [generate_analysis_v5], by simp [generate_analysis_v5],
        by simp [generate_analysis_v5], by simp [generate_analysis_v5], by simp⟩
    | some t0 =>
      refine ⟨by simp [generate_analysis_v5], by simp [generate_analysis_v5],
        by simp [generate_analysis_v5], by simp [generate_analysis_v5], ?_⟩
      intro t ht
      injection ht with h
      subst h
      simp [generate_analysis_v5]

/-- C8 witness: the end-to-end text scenario — both two-tier calls succeed,
and the direct-mode call succeeds — instantiated concretely. -/
theorem text_modality_call_counts_witness :
    (generate_analysis
      ⟨none, ⟨none, false, FileState.processing, fun _ => FileState.processing⟩,
       some "strategy", some "the analysis", true⟩ Modality.text).genCalls = 2
    ∧ (generate_analysis
      ⟨none, ⟨none, false, FileState.processing, fun _ => FileState.processing⟩,
       some "strategy", some "the analysis", true⟩ Modality.text).filesCreated = 0
    ∧ (generate_analysis
      ⟨none, ⟨none, false, FileState.processing, fun _ => FileState.processing⟩,
       some "strategy", some "the analysis", true⟩ Modality.text).deletes = 0
    ∧ (generate_analysis
      ⟨none, ⟨none, false, FileState.processing, fun _ => FileState.processing⟩,
       some "strategy", some "the analysis", true⟩ Modality.text).result =
        some "the analysis"
    ∧ (generate_analysis_v5
      ⟨none, ⟨none, false, FileState.processing, fun _ => FileState.processing⟩,
       some "the analysis", true⟩ Modality.text).genCalls = 1
    ∧ (generate_analysis_v5
      ⟨none, ⟨none, false, FileState.processing, fun _ => FileState.processing⟩,
       some "the analysis", true⟩ Modality.text).result = some "the analysis" := by
  refine ⟨(text_modality_call_counts.1 _).2.2.2.1 rfl, (text_modality_call_counts.1 _).1,
    (text_modality_call_counts.1 _).2.2.1,
    (text_modality_call_counts.1 _).2.2.2.2 "the analysis" rfl rfl,
    (text_modality_call_counts.2 _).2.2.2.1,
    (text_modality_call_counts.2 _).2.2.2.2 "the analysis" rfl⟩

/-!
## Multi-step pipelines (v7.2 execution blocks, lines 986-1133)

Each pipeline run is modelled against an oracle giving the text produced by
`generate_analysis` for a lens (`none` is a failed call).  The execution
blocks test results with Python truthiness, so an empty string also counts as
a failure.  Each model returns the list of analysis calls actually issued and
whether the synthesis call was issued.
-/

/-- Python truthiness of an analysis result (`None` and `""` are falsy). -/
def pyTruthy : Option String → Bool
  | none => false
  | some s => !s.isEmpty

/-- The dialectical execution block (v7.2, lines 986-1034): thesis first, the
antithesis only if the thesis is truthy, the synthesis call only if both
are. -/
def runDialectical (g : String → Option String) (a b : String) :
    List String × Bool :=
  if pyTruthy (g a) then
    if pyTruthy (g b) then ([a, b], true) else ([a, b], false)
  else ([a], false)

/-- The symposium execution loop (v7.2, lines 1037-1071): analyses are issued
in order, a falsy result stops the loop (`continue_execution = False`), and
the synthesis call is issued only when the loop finished with the flag still
set.  Returns (collected analyses, issued analysis calls, synthesis issued). -/
def runSymposium (g : String → Option String) :
    List String → List (String × String) × List String × Bool
  | [] => ([], [], true)
  | l :: ls =>
    match g l with
    | some t =>
      if t.isEmpty then ([], [l], false)
      else
        let r := runSymposium g ls
        ((l, t) :: r.1, l :: r.2.1, r.2.2)
    | none => ([], [l], false)

/-- The comparative execution block (v7.2, lines 1084-1133): analyze work A,
analyze work B only if the analysis of A is truthy, synthesize only if both are.
Returns (number of analysis calls issued, synthesis issued). -/
def runComparative (gA gB : Option String) : Nat × Bool :=
  if pyTruthy gA then
    if pyTruthy gB then (2, true) else (2, false)
  else (1, false)

theorem runSymposium_ok_iff (g : String → Option String) (L : List String) :
    (runSymposium g L).2.2 = true ↔ ∀ l ∈ L, pyTruthy (g l) = true := by
  induction L with
  | nil => simp [runSymposium]
  | cons x xs ih =>
    cases hg : g x with
    | none => simp [runSymposium, hg, pyTruthy]
    | some t =>
      by_cases ht : t.isEmpty
      · simp [runSymposium, hg, ht, pyTruthy]
      · simp [runSymposium, hg, ht, pyTruthy, ih]

theorem runSymposium_halt (g : String → Option String) (L : List String) :
    (runSymposium g L).2.2 = false →
      ∃ p x rest, L = p ++ x :: rest
        ∧ (runSymposium g L).2.1 = p ++ [x]
        ∧ pyTruthy (g x) = false
        ∧ ∀ y ∈ p, pyTruthy (g y) = true := by
  induction L with
  | nil => simp [runSymposium]
  | cons x xs ih =>
    intro hfail
    cases hg : g x with
    | none =>
      exact ⟨[], x, xs, rfl, by simp [runSymposium, hg], by simp [pyTruthy, hg],
        by simp⟩
    | some t =>
      by_cases ht : t.isEmpty
      · exact ⟨[], x, xs, rfl, by simp [runSymposium, hg, ht],
          by simp [pyTruthy, hg, ht], by simp⟩
      · rw [runSymposium, hg] at hfail
        simp only [ht, reduceIte] at hfail
        obtain ⟨p, y, rest, hL, hcalls, hy, hp⟩ := ih hfail
        refine ⟨x :: p, y, rest, by simp [hL], ?_, hy, ?_⟩
        · rw [runSymposium, hg]
          simp only [ht, reduceIte]
          simp [hcalls]
        · intro z hz
          cases hz with
          | head => simp [pyTruthy, hg, ht]
          | tail _ hz2 => exact hp z hz2

theorem runSymposium_length (g : String → Option String) (L : List String) :
    (runSymposium g L).2.2 = true → (runSymposium g L).1.length = L.length := by
  induction L with
  | nil => simp [runSymposium]
  | cons x xs ih =>
    intro hok
    cases hg : g x with
    | none => rw [runSymposium, hg] at hok; simp at hok
    | some t =>
      by_cases ht : t.isEmpty
      · rw [runSymposium, hg] at hok
        simp [ht] at hok
      · rw [runSymposium, hg] at hok ⊢
        simp only [ht, reduceIte] at hok ⊢
        simp [ih hok]

/-- C2: in every multi-step pipeline the synthesis call is issued exactly when
every analysis call succeeded (so an incomplete set of analyses is never
synthesized alone), and whenever some issued analysis call fails, the issued calls are
precisely those up to and including the first failing one — every lens after
it receives no call — and the synthesis call is not issued. -/
theorem pipelines_halt_on_first_failure :
    (∀ (g : String → Option String) (a b : String),
      ((runDialectical g a b).2 = true ↔
        (pyTruthy (g a) = true ∧ pyTruthy (g b) = true))
      ∧ (pyTruthy (g a) = false → runDialectical g a b = ([a], false))
      ∧ (pyTruthy (g a) = true → pyTruthy (g b) = false →
          runDialectical g a b = ([a, b], false)))
    ∧ (∀ (g : String → Option String) (L : List String),
      ((runSymposium g L).2.2 = true ↔ ∀ l ∈ L, pyTruthy (g l) = true)
      ∧ ((runSymposium g L).2.2 = false →
          ∃ p x rest, L = p ++ x :: rest
            ∧ (runSymposium g L).2.1 = p ++ [x]
            ∧ pyTruthy (g x) = false
            ∧ ∀ y ∈ p, pyTruthy (g y) = true))
    ∧ (∀ (gA gB : Option String),
      ((runComparative gA gB).2 = true ↔
        (pyTruthy gA = true ∧ pyTruthy gB = true))
      ∧ (pyTruthy gA = false → runComparative gA gB = (1, false))
      ∧ (pyTruthy gA = true → pyTruthy gB = false →
          runComparative gA gB = (2, false))) := by
  refine ⟨?_, ?_, ?_⟩
  · intro g a b
    refine ⟨?_, ?_, ?_⟩
    · cases ha : pyTruthy (g a) <;> cases hb : pyTruthy (g b) <;>
        simp [runDialectical, ha, hb]
    · intro ha
      simp [runDialectical, ha]
    · intro ha hb
      simp [runDialectical, ha, hb]
  · intro g L
    exact ⟨runSymposium_ok_iff g L, runSymposium_halt g L⟩
  · intro gA gB
    refine ⟨?_, ?_, ?_⟩
    · cases ha : pyTruthy gA <;> cases hb : pyTruthy gB <;>
        simp [runComparative, ha, hb]
    · intro ha
      simp [runComparative, ha]
    · intro ha hb
      simp [runComparative, ha, hb]

/-- C2 witness: a symposium over lenses A, B, C whose oracle fails on B
issues calls to A and B only and no synthesis; a dialectical run failing on
the thesis issues one call and no synthesis; a comparative run failing on
work B issues both analysis calls and no synthesis. -/
theorem pipelines_halt_on_first_failure_witness :
    (∃ p x rest, (["A", "B", "C"] : List String) = p ++ x :: rest
      ∧ (runSymposium (fun l => if l = "B" then none else some "ok")
          ["A", "B", "C"]).2.1 = p ++ [x]
      ∧ pyTruthy ((fun l => if l = "B" then none else some "ok") x) = false
      ∧ ∀ y ∈ p,
          pyTruthy ((fun l => if l = "B" then none else some "ok") y) = true)
    ∧ runDialectical (fun _ => none) "A" "B" = (["A"], false)
    ∧ runComparative (some "ok") (some "") = (2, false) :=
  ⟨(pipelines_halt_on_first_failure.2.1
      (fun l => if l = "B" then none else some "ok") ["A", "B", "C"]).2
      (by decide),
   (pipelines_halt_on_first_failure.1 (fun _ => none) "A" "B").2.1 (by decide),
   (pipelines_halt_on_first_failure.2.2 (some "ok") (some "")).2.2
      (by decide) (by decide)⟩

/-!
## Caller-side selection validation (v7.2 sidebar) and mode gates
-/

/-- The symposium sidebar validation (v7.2, lines 800-814): a started but
undersized multiselect (fewer than 3 lenses) resets the stored selection to
empty with a warning; 3 or more lenses are stored; no selection stays empty. -/
def validate_symposium_selection (selected : List String) : List String :=
  if 0 < selected.length ∧ selected.length < 3 then []
  else if 3 ≤ selected.length then selected
  else []

/-- The symposium mode gate (v7.2, lines 855-865):
`if selection and len(selection) >= 3`. -/
def symposium_gate (selection : List String) : Bool :=
  !selection.isEmpty && decide (3 ≤ selection.length)

/-- The dialectical sidebar validation (v7.2, lines 758-767): both lenses
must be chosen; equal lenses reset the selection to empty with a warning. -/
def validate_dialectical_selection (lensA lensB : Option String) : List String :=
  match lensA, lensB with
  | some a, some b => if a = b then [] else [a, b]
  | _, _ => []

/-- The dialectical mode gate (v7.2, lines 842-853):
`if selection and len(selection) == 2`. -/
def dialectical_gate (selection : List String) : Bool :=
  !selection.isEmpty && decide (selection.length = 2)

/-- C9: the sidebar validation rejects (resets to empty) every lens selection
of size below 3, and on any selection of pairwise-distinct lens names (the
multiselect widget only offers distinct options) that passes the validation
and the mode gate, a symposium run that reaches the synthesis call hands it
at least 3 lens analyses. -/
theorem symposium_min_three :
    (∀ sel : List String, sel.length < 3 → validate_symposium_selection sel = [])
    ∧ (∀ (sel : List String) (g : String → Option String),
        sel.Nodup →
        symposium_gate (validate_symposium_selection sel) = true →
        (runSymposium g (validate_symposium_selection sel)).2.2 = true →
        3 ≤ (runSymposium g (validate_symposium_selection sel)).1.length
          ∧ (runSymposium g (validate_symposium_selection sel)).1.length =
              (validate_symposium_selection sel).length) := by
  constructor
  · intro sel hlen
    unfold validate_symposium_selection
    by_cases h0 : 0 < sel.length ∧ sel.length < 3
    · rw [if_pos h0]
    · rw [if_neg h0, if_neg (by omega)]
  · intro sel g _hnd hgate hok
    have hlen := runSymposium_length g (validate_symposium_selection sel) hok
    refine ⟨?_, hlen⟩
    rw [hlen]
    unfold symposium_gate at hgate
    have h3 : 3 ≤ (validate_symposium_selection sel).length := by
      rcases Bool.and_eq_true_iff.mp hgate with ⟨_, h⟩
      exact of_decide_eq_true h
    exact h3

/-- C9 witness: a valid three-lens selection with an all-success oracle
reaches the synthesis call with exactly 3 analyses; and a two-lens selection
is reset to empty. -/
theorem symposium_min_three_witness :
    validate_symposium_selection ["Jungian", "Marxist"] = []
    ∧ 3 ≤ (runSymposium (fun _ => some "ok")
        (validate_symposium_selection ["Jungian", "Marxist", "Taoist"])).1.length :=
  ⟨symposium_min_three.1 ["Jungian", "Marxist"] (by decide),
   (symposium_min_three.2 ["Jungian", "Marxist", "Taoist"] (fun _ => some "ok")
      (by decide) (by decide) (by decide)).1⟩

/-- C10: the dialectical sidebar validation empties the selection whenever
Lens A and Lens B are the same name, and every selection that passes the
dialectical mode gate consists of exactly two distinct lens names — so the
execution block, which reads `selection[0]` and `selection[1]`, only ever
starts (and only ever invokes the dialectical synthesis) with two distinct
lenses. -/
theorem dialectical_distinct :
    (∀ a : String, validate_dialectical_selection (some a) (some a) = [])
    ∧ (∀ la lb : Option String,
        dialectical_gate (validate_dialectical_selection la lb) = true →
        ∃ x y, validate_dialectical_selection la lb = [x, y] ∧ x ≠ y) := by
  constructor
  · intro a
    simp [validate_dialectical_selection]
  · intro la lb hgate
    cases la with
    | none => simp [validate_dialectical_selection, dialectical_gate] at hgate
    | some a =>
      cases lb with
      | none => simp [validate_dialectical_selection, dialectical_gate] at hgate
      | some b =>
        by_cases hab : a = b
        · rw [validate_dialectical_selection] at hgate
          simp [hab, dialectical_gate] at hgate
        · refine ⟨a, b, ?_, hab⟩
          rw [validate_dialectical_selection]
          simp [hab]

/-- C10 witness: identical lenses are rejected; the distinct pair
("Marxist", "Feminist") passes the gate and is stored as two distinct
names. -/
theorem dialectical_distinct_witness :
    validate_dialectical_selection (some "Marxist") (some "Marxist") = []
    ∧ ∃ x y, validate_dialectical_selection (some "Marxist") (some "Feminist") =
        [x, y] ∧ x ≠ y :=
  ⟨dialectical_distinct.1 "Marxist",
   dialectical_distinct.2 (some "Marxist") (some "Feminist") (by decide)⟩

/-!
## MIME resolution claim (C4)
-/

theorem pyFalsy_false_ne_none (x : Option String) (h : pyFalsy x = false) :
    x ≠ none := by
  cases x with
  | none => simp [pyFalsy] at h
  | some s => simp

theorem resolve_declared (d g : Option String) (hd : pyFalsy d = false)
    (hgen : d ≠ some "application/octet-stream") : resolve_mime_type d g = d := by
  simp only [resolve_mime_type, hd, Bool.false_or, decide_eq_true_eq]
  rw [if_neg hgen]
  simp [hd]

theorem resolve_guessed (d g : Option String)
    (hcond : pyFalsy d = true ∨ d = some "application/octet-stream")
    (hg : pyFalsy g = false) : resolve_mime_type d g = g := by
  have hif : (pyFalsy d || decide (d = some "application/octet-stream")) = true := by
    rcases hcond with h | h
    · simp [h]
    · simp [h]
  simp only [resolve_mime_type, hif, reduceIte, hg]
  simp [hg]

theorem resolve_generic (g : Option String) (hg : pyFalsy g = true) :
    resolve_mime_type (some "application/octet-stream") g =
      some "application/octet-stream" := by
  simp only [resolve_mime_type, hg]
  simp [pyFalsy]
  decide

theorem resolve_none_iff (d g : Option String) :
    resolve_mime_type d g = none ↔ (pyFalsy d = true ∧ pyFalsy g = true) := by
  constructor
  · intro h
    by_cases hd : pyFalsy d = true
    · by_cases hg : pyFalsy g = true
      · exact ⟨hd, hg⟩
      · rw [resolve_guessed d g (Or.inl hd) (by simpa using hg)] at h
        exact absurd h (pyFalsy_false_ne_none g (by simpa using hg))
    · by_cases hgen : d = some "application/octet-stream"
      · by_cases hg : pyFalsy g = true
        · subst hgen
          rw [resolve_generic g hg] at h
          exact absurd h (by simp)
        · rw [resolve_guessed d g (Or.inr hgen) (by simpa using hg)] at h
          exact absurd h (pyFalsy_false_ne_none g (by simpa using hg))
      · rw [resolve_declared d g (by simpa using hd) hgen] at h
        exact absurd h (pyFalsy_false_ne_none d (by simpa using hd))
  · intro hcon
    obtain ⟨hd, hg⟩ := hcon
    simp only [resolve_mime_type, hd, Bool.true_or, reduceIte, hg]

theorem upload_mime_unknown (d : Option String) (env : RemoteStore)
    (h : resolve_mime_type d env.guessed = none) :
    upload_to_gemini d env =
      ⟨0, 0, Except.error UploadError.mimeTypeUnknown⟩ := by
  simp [upload_to_gemini, h]

/-- C4 counterexample: with declared type "application/octet-stream" and
failed extension sniffing, the generic type is truthy, so the final
`if not mime_type` guard does not fire: resolution yields the generic type
and the upload proceeds (the remote file is created and the attempt runs to
completion), contradicting the claim that the upload does not proceed in this
situation. -/
theorem mime_claim_counterexample :
    resolve_mime_type (some "application/octet-stream") none =
      some "application/octet-stream"
    ∧ upload_to_gemini (some "application/octet-stream")
        ⟨none, true, FileState.active, fun _ => FileState.active⟩ =
      ⟨1, 0, Except.ok FileState.active⟩ :=
  ⟨by decide,
   upload_init_active (some "application/octet-stream")
     ⟨none, true, FileState.active, fun _ => FileState.active⟩
     (by decide) rfl rfl⟩

/-- C4 (amended): upload resolves the MIME type from the declared type; when
the declared type is absent/empty or is the generic
"application/octet-stream", a truthy sniffed type replaces it; resolution
fails — and the upload then stops with the MIME-unknown error before creating
any remote file — exactly when both the declared and the sniffed type are
falsy.  In particular, a generic declared type with failed sniffing resolves
to the generic type and the upload proceeds. -/
theorem resolve_mime_spec :
    (∀ d g : Option String,
      resolve_mime_type d g = none ↔ (pyFalsy d = true ∧ pyFalsy g = true))
    ∧ (∀ d g : Option String, pyFalsy d = false →
        d ≠ some "application/octet-stream" → resolve_mime_type d g = d)
    ∧ (∀ d g : Option String,
        (pyFalsy d = true ∨ d = some "application/octet-stream") →
        pyFalsy g = false → resolve_mime_type d g = g)
    ∧ (∀ g : Option String, pyFalsy g = true →
        resolve_mime_type (some "application/octet-stream") g =
          some "application/octet-stream")
    ∧ (∀ (d : Option String) (env : RemoteStore),
        resolve_mime_type d env.guessed = none →
        upload_to_gemini d env =
          ⟨0, 0, Except.error UploadError.mimeTypeUnknown⟩) :=
  ⟨resolve_none_iff, resolve_declared, resolve_guessed, resolve_generic,
   upload_mime_unknown⟩

/-- C4 witness: the amended theorem at concrete inputs — fully absent types
fail, the generic declared type defers to a successful sniff, the generic
declared type with a failed sniff proceeds as the generic type, and an
unresolvable attempt errors with MIME-unknown creating no remote file. -/
theorem resolve_mime_spec_witness :
    resolve_mime_type none none = none
    ∧ resolve_mime_type (some "application/octet-stream") (some "image/png") =
        some "image/png"
    ∧ resolve_mime_type (some "application/octet-stream") none =
        some "application/octet-stream"
    ∧ upload_to_gemini none
        ⟨none, true, FileState.active, fun _ => FileState.active⟩ =
      ⟨0, 0, Except.error UploadError.mimeTypeUnknown⟩ :=
  ⟨(resolve_mime_spec.1 none none).mpr (by decide),
   resolve_mime_spec.2.2.1 (some "application/octet-stream") (some "image/png")
     (Or.inr rfl) (by decide),
   resolve_mime_spec.2.2.2.1 none (by decide),
   resolve_mime_spec.2.2.2.2 none
     ⟨none, true, FileState.active, fun _ => FileState.active⟩ (by decide)⟩
